import Mathlib

/-!
Shallow embedding of the NLB controller core of this repository:
the deterministic name generator (internal/nlb/generator), the
load-balancer controller (package lb), the target-group controller
(package tg) and subnet resolution, together with theorems checking
the natural-language specification against the embedded code.

Machine integers are modelled as `Nat` with explicit reduction modulo
2^32 where the Go code relies on 32-bit wraparound (the md5 hash).
Go pointers whose nil-ness is observable are modelled as `Option`;
a nil-pointer dereference is modelled as an explicit fault value.
-/

namespace NLB

/-! ## MD5 (crypto/md5 of the Go standard library, used by NameLB)

The generator calls Go's `crypto/md5`; the full RFC 1321 algorithm is
embedded here over byte lists so that hash-dependent names evaluate to
their concrete values. -/

def md5K : List Nat := [
  3614090360, 3905402710, 606105819, 3250441966, 4118548399, 1200080426, 2821735955, 4249261313,
  1770035416, 2336552879, 4294925233, 2304563134, 1804603682, 4254626195, 2792965006, 1236535329,
  4129170786, 3225465664, 643717713, 3921069994, 3593408605, 38016083, 3634488961, 3889429448,
  568446438, 3275163606, 4107603335, 1163531501, 2850285829, 4243563512, 1735328473, 2368359562,
  4294588738, 2272392833, 1839030562, 4259657740, 2763975236, 1272893353, 4139469664, 3200236656,
  681279174, 3936430074, 3572445317, 76029189, 3654602809, 3873151461, 530742520, 3299628645,
  4096336452, 1126891415, 2878612391, 4237533241, 1700485571, 2399980690, 4293915773, 2240044497,
  1873313359, 4264355552, 2734768916, 1309151649, 4149444226, 3174756917, 718787259, 3951481745]

def md5S : List Nat := [
  7, 12, 17, 22, 7, 12, 17, 22, 7, 12, 17, 22, 7, 12, 17, 22,
  5, 9, 14, 20, 5, 9, 14, 20, 5, 9, 14, 20, 5, 9, 14, 20,
  4, 11, 16, 23, 4, 11, 16, 23, 4, 11, 16, 23, 4, 11, 16, 23,
  6, 10, 15, 21, 6, 10, 15, 21, 6, 10, 15, 21, 6, 10, 15, 21]

def bnot32 (x : Nat) : Nat := Nat.xor x 4294967295

def rotl32 (x c : Nat) : Nat := (x * 2 ^ c + x / 2 ^ (32 - c)) % 4294967296

structure MD5State where
  a : Nat
  b : Nat
  c : Nat
  d : Nat
deriving Repr, DecidableEq

def md5Init : MD5State := ⟨1732584193, 4023233417, 2562383102, 271733878⟩

def bytesToWordsLE : List Nat → List Nat
  | b0 :: b1 :: b2 :: b3 :: rest =>
      (b0 + 256 * b1 + 65536 * b2 + 16777216 * b3) :: bytesToWordsLE rest
  | _ => []

def md5Round (M : List Nat) (st : MD5State) (i : Nat) : MD5State :=
  let fg : Nat × Nat :=
    if i < 16 then (Nat.lor (Nat.land st.b st.c) (Nat.land (bnot32 st.b) st.d), i)
    else if i < 32 then (Nat.lor (Nat.land st.d st.b) (Nat.land (bnot32 st.d) st.c), (5 * i + 1) % 16)
    else if i < 48 then (Nat.xor (Nat.xor st.b st.c) st.d, (3 * i + 5) % 16)
    else (Nat.xor st.c (Nat.lor st.b (bnot32 st.d)), (7 * i) % 16)
  let temp := (st.a + fg.1 + md5K.getD i 0 + M.getD fg.2 0) % 4294967296
  ⟨st.d, (st.b + rotl32 temp (md5S.getD i 0)) % 4294967296, st.b, st.c⟩

def md5ProcessBlock (st : MD5State) (block : List Nat) : MD5State :=
  let M := bytesToWordsLE block
  let r := (List.range 64).foldl (md5Round M) st
  ⟨(st.a + r.a) % 4294967296, (st.b + r.b) % 4294967296,
   (st.c + r.c) % 4294967296, (st.d + r.d) % 4294967296⟩

def natBytesLE (count n : Nat) : List Nat :=
  (List.range count).map (fun i => (n / 256 ^ i) % 256)

def md5Pad (msg : List Nat) : List Nat :=
  let len := msg.length
  let zeros := (120 - (len + 1) % 64) % 64
  msg ++ [128] ++ List.replicate zeros 0 ++ natBytesLE 8 ((8 * len) % 2 ^ 64)

def chunks64 : Nat → List Nat → List (List Nat)
  | 0, _ => []
  | _, [] => []
  | fuel + 1, l => l.take 64 :: chunks64 fuel (l.drop 64)

def md5Bytes (msg : List Nat) : List Nat :=
  let padded := md5Pad msg
  let final := (chunks64 padded.length padded).foldl md5ProcessBlock md5Init
  natBytesLE 4 final.a ++ natBytesLE 4 final.b ++ natBytesLE 4 final.c ++ natBytesLE 4 final.d

def hexChar (n : Nat) : Char := "0123456789abcdef".data.getD n '0'

def byteHexChars (b : Nat) : List Char := [hexChar (b / 16), hexChar (b % 16)]

def utf8EncodeChar (c : Char) : List Nat :=
  let n := c.toNat
  if n < 128 then [n]
  else if n < 2048 then [192 + n / 64, 128 + n % 64]
  else if n < 65536 then [224 + n / 4096, 128 + (n / 64) % 64, 128 + n % 64]
  else [240 + n / 262144, 128 + (n / 4096) % 64, 128 + (n / 64) % 64, 128 + n % 64]

def utf8Bytes (s : String) : List Nat := s.data.flatMap utf8EncodeChar

/-- `hex.EncodeToString(md5.Sum(bytes(s)))` of the Go code. -/
def md5Hex (s : String) : String := String.mk ((md5Bytes (utf8Bytes s)).flatMap byteHexChars)

/-! ## NameGenerator (internal/nlb/generator)

`NameLB` mirrors `(gen *NameGenerator) NameLB` of the generator package.
The Go regexp `[[:^alnum:]]` matches exactly the characters outside ASCII
`[0-9A-Za-z]`; after sanitization every character is ASCII, so Go's
byte-indexed truncation `name[:26]` coincides with character truncation. -/

def isAlnumASCII (c : Char) : Bool := c.isAlpha || c.isDigit

/-- `r.ReplaceAllString(s, "-")` for `r = [[:^alnum:]]`. -/
def replaceNonAlnumWithHyphen (s : String) : String :=
  String.mk (s.data.map (fun c => if isAlnumASCII c then c else '-'))

/-- `r.ReplaceAllString(s, "")` for `r = [[:^alnum:]]`. -/
def stripNonAlnum (s : String) : String :=
  String.mk (s.data.filter isAlnumASCII)

/-- `NameLB` of internal/nlb/generator: hash of namespace+serviceName,
sprintf with hyphen separators, truncate to 26, append hyphen and hash. -/
def NameLB (pfx ns svc : String) : String :=
  let hash := String.mk ((md5Hex (ns ++ svc)).data.take 4)
  let name := replaceNonAlnumWithHyphen pfx ++ "-" ++ stripNonAlnum ns ++ "-" ++ stripNonAlnum svc
  let name := if name.length > 26 then String.mk (name.data.take 26) else name
  name ++ "-" ++ hash

/-- The LB-name formula exactly as the specification words it:
`sanitize(prefix) + "-" + sanitize(namespace) + sanitize(serviceName)`,
with no separator between the sanitized namespace and the sanitized
service name, truncated to 26, then `"-" + first4(hex(md5(ns+svc)))`. -/
def specNameLB (pfx ns svc : String) : String :=
  let base := replaceNonAlnumWithHyphen pfx ++ "-" ++ stripNonAlnum ns ++ stripNonAlnum svc
  String.mk (base.data.take 26) ++ "-" ++ String.mk ((md5Hex (ns ++ svc)).data.take 4)

/-- The LB-name formula amended to match the code: a hyphen separator also
appears between the sanitized namespace and the sanitized service name. -/
def specNameLBAmended (pfx ns svc : String) : String :=
  let base := replaceNonAlnumWithHyphen pfx ++ "-" ++ stripNonAlnum ns ++ "-" ++ stripNonAlnum svc
  String.mk (base.data.take 26) ++ "-" ++ String.mk ((md5Hex (ns ++ svc)).data.take 4)

/-! ## Data model (aws-sdk elbv2/ec2 values and annotation structs)

Go pointer fields whose nil-ness is observable to the embedded code are
`Option`; pointer fields that the code dereferences unconditionally and
that the annotation parser always populates (HealthCheck.Port,
HealthCheck.Protocol, TargetGroup.TargetType, TargetGroup.BackendProtocol)
are plain values. `aws.StringValue` is `Option.getD ""`. -/

/-- Error values; Go wraps errors with a message prefix (`fmt.Errorf(
"... due to %v", err)`), modelled by the `wrapped` constructor. A Go
runtime panic (nil-pointer dereference) is `nilPointerDereference`. -/
inductive Err where
  | cloud (msg : String)
  | nilPointerDereference
  | invalidScheme (scheme : String)
  | subnetMismatch (requested resolved : List String)
  | insufficientSubnets (resolved : List String)
  | notWhitelisted (ns svcName : String)
  | missingNodePort (svcName portName : String)
  | portNotFound (portName : String)
  | wrapped (msg : String) (inner : Err)
deriving Repr, DecidableEq

/-- elbv2.Matcher. -/
structure Matcher where
  HttpCode : Option String
deriving Repr, DecidableEq

/-- elbv2.TargetGroup (the fields the embedded code reads). -/
structure TGInstance where
  TargetGroupArn : Option String
  HealthCheckPath : Option String
  HealthCheckPort : Option String
  HealthCheckProtocol : Option String
  HealthCheckIntervalSeconds : Option Int
  Matcher : Option Matcher
  HealthyThresholdCount : Option Int
  UnhealthyThresholdCount : Option Int
deriving Repr, DecidableEq

/-- annotations healthcheck.Config; Port and Protocol are dereferenced
unconditionally by the tg controller and therefore modelled non-nil. -/
structure HealthCheckAnnos where
  Path : Option String
  Port : String
  Protocol : String
  IntervalSeconds : Option Int
deriving Repr, DecidableEq

/-- annotations targetgroup.Config (the fields the embedded code reads). -/
structure TGAnnos where
  SuccessCodes : Option String
  HealthyThresholdCount : Option Int
  UnhealthyThresholdCount : Option Int
  BackendProtocol : String
  TargetType : String
deriving Repr, DecidableEq

/-- annotations loadbalancer.Config (the fields the lb controller reads). -/
structure LBAnnos where
  Scheme : Option String
  IPAddressType : Option String
  Subnets : List String
deriving Repr, DecidableEq

/-- annotations.Service (the merged annotation struct, relevant fields). -/
structure ServiceAnnos where
  LoadBalancer : LBAnnos
  HealthCheck : HealthCheckAnnos
  TargetGroup : TGAnnos
  TagsLB : List (String × String)
deriving Repr, DecidableEq

/-- elbv2.AvailabilityZone (SubnetId is what `AsSubnets` extracts). -/
structure AvailabilityZone where
  SubnetId : Option String
deriving Repr, DecidableEq

/-- elbv2.LoadBalancer (the fields the embedded code reads). -/
structure LBInstance where
  LoadBalancerArn : Option String
  DNSName : Option String
  Scheme : Option String
  IpAddressType : Option String
  AvailabilityZones : List AvailabilityZone
deriving Repr, DecidableEq

/-- loadBalancerConfig of package lb; the Go field `Type` is `LBType`
here because `Type` is a reserved word in Lean. -/
structure LBConfig where
  Name : String
  Tags : List (String × String)
  LBType : Option String
  Scheme : Option String
  IpAddressType : Option String
  Subnets : List String
deriving Repr, DecidableEq

/-- The LoadBalancer result struct returned by lb.Reconcile. -/
structure LoadBalancer where
  Arn : String
  DNSName : String
deriving Repr, DecidableEq

/-- ec2.Subnet; AvailabilityZone is dereferenced by subnetIsUsable and is
always populated by the cloud, so it is a plain value. -/
structure Subnet where
  SubnetId : Option String
  AvailabilityZone : String
deriving Repr, DecidableEq

/-- An ec2 tag on a cluster subnet. -/
structure SubnetTag where
  Key : Option String
  Value : Option String
deriving Repr, DecidableEq

/-- intstr.IntOrString. -/
inductive IntOrString where
  | int (n : Int)
  | str (s : String)
deriving Repr, DecidableEq

/-- `IntOrString.String()` of k8s intstr. -/
def IntOrString.asString : IntOrString → String
  | .int n => toString n
  | .str s => s

/-- corev1.ServicePort (the fields the embedded code reads). -/
structure ServicePort where
  Name : String
  Port : Int
  TargetPort : IntOrString
  NodePort : Int
deriving Repr, DecidableEq

/-- corev1.Service (the fields the embedded code reads). -/
structure K8sService where
  Ports : List ServicePort
deriving Repr, DecidableEq

/-- The cloud calls the embedded code can issue, recorded as a trace.
`lsGroupReconcile`, `lsGroupDelete`, `tgGroupReconcile` and
`tgGroupDelete` mark invocations of the listener-group and
target-group-group collaborators; `deleteTargetGroup` records one GC
deletion. -/
inductive CloudCall where
  | getLoadBalancerByName (name : String)
  | createLoadBalancer (cfg : LBConfig)
  | deleteLoadBalancerByArn (arn : String)
  | setIpAddressType (arn : String) (t : Option String)
  | setSubnets (arn : String) (subnets : List String)
  | reconcileELBTags (arn : String)
  | reconcileAttributes (arn : String)
  | getTargetGroupByName (name : String)
  | createTargetGroup (name : String)
  | modifyTargetGroup (arn : String) (healthCheckPort : String)
  | getSubnetsByNameOrID (names : List String)
  | getClusterSubnets
  | lsGroupReconcile (lbArn : String) (group : List String)
  | lsGroupDelete (lbArn : String)
  | tgGroupReconcile
  | tgGroupDelete (ns svcName : String)
  | deleteTargetGroup (arn : String)
deriving Repr, DecidableEq

def CloudCall.isCreateLoadBalancer : CloudCall → Bool
  | .createLoadBalancer _ => true
  | _ => false

def CloudCall.isDeleteLoadBalancerByArn : CloudCall → Bool
  | .deleteLoadBalancerByArn _ => true
  | _ => false

def CloudCall.isSetIpAddressType : CloudCall → Bool
  | .setIpAddressType _ _ => true
  | _ => false

def CloudCall.isSetSubnets : CloudCall → Bool
  | .setSubnets _ _ => true
  | _ => false

def CloudCall.isModifyTargetGroup : CloudCall → Bool
  | .modifyTargetGroup _ _ => true
  | _ => false

def CloudCall.isDeleteTargetGroup : CloudCall → Bool
  | .deleteTargetGroup _ => true
  | _ => false

/-- The environment of the controller: the cloud API, the store, the
configuration values it reads, and the collaborator controllers whose
implementations are outside the provided sources (listener group,
target-group group, attributes, tags). Each fallible operation is a pure
function returning `Except`. -/
structure Env where
  getLoadBalancerByName : String → Except Err (Option LBInstance)
  createLoadBalancer : LBConfig → Except Err LBInstance
  deleteLoadBalancerByArn : String → Except Err Unit
  setIpAddressType : String → Option String → Except Err Unit
  setSubnets : String → List String → Except Err Unit
  reconcileELBTags : String → List (String × String) → Except Err Unit
  getTargetGroupByName : String → Except Err (Option TGInstance)
  createTargetGroup : String → Except Err TGInstance
  modifyTargetGroup : String → Except Err TGInstance
  getSubnetsByNameOrID : List String → Except Err (List Subnet)
  getClusterSubnets : Except Err (List (String × List SubnetTag))
  getService : String → Except Err K8sService
  getServiceAnnos : Except Err ServiceAnnos
  attrsReconcile : String → Except Err Unit
  tgGroupReconcile : Except Err (List String)
  lsGroupReconcile : String → List String → Except Err Unit
  lsGroupDelete : String → Except Err Unit
  tgGroupDelete : String → String → Except Err Unit
  ownedTGArns : List String
  clusterName : String
  defaultTags : List (String × String)
  restrictScheme : Bool
  internetFacingServices : List (String × List String)

/-! ## TagGenerator (internal/nlb/generator, tag side) -/

/-- `tagServiceResources` / `TagLB` of the tag generator, as an
association list (map iteration order is irrelevant to the claims). -/
def TagLB (clusterName : String) (defaultTags : List (String × String)) (ns svcName : String) : List (String × String) :=
  defaultTags ++ [("kubernetes.io/cluster/" ++ clusterName, "owned"),
    ("kubernetes.io/namespace", ns), ("kubernetes.io/service-name", svcName)]

/-! ## TargetGroupController (package tg, part_003) -/

/-- `*p == "HTTP" || *p == "HTTPS"` as it appears in the guards. -/
def isHTTPX (p : String) : Bool := p == "HTTP" || p == "HTTPS"

/-- `TGInstanceNeedsModification` (part_003 lines 208-237). The Go code
accumulates `needsChange` over seven if-statements with no early exit;
the fifth statement evaluates `instance.Matcher.HttpCode` before the
short-circuiting protocol test, a nil-pointer dereference whenever the
live target group carries no matcher. -/
def TGInstanceNeedsModification (inst : TGInstance) (annos : ServiceAnnos) : Except Err Bool :=
  let c1 := (inst.HealthCheckPath != annos.HealthCheck.Path) && isHTTPX annos.HealthCheck.Protocol
  let c2 := inst.HealthCheckPort != some annos.HealthCheck.Port
  let c3 := inst.HealthCheckProtocol != some annos.HealthCheck.Protocol
  let c4 := inst.HealthCheckIntervalSeconds != annos.HealthCheck.IntervalSeconds
  match inst.Matcher with
  | none => .error .nilPointerDereference
  | some m =>
    let c5 := (m.HttpCode != annos.TargetGroup.SuccessCodes) && isHTTPX annos.HealthCheck.Protocol
    let c6 := inst.HealthyThresholdCount != annos.TargetGroup.HealthyThresholdCount
    let c7 := inst.UnhealthyThresholdCount != annos.TargetGroup.UnhealthyThresholdCount
    .ok (c1 || c2 || c3 || c4 || c5 || c6 || c7)

/-- `reconcileTGInstance` (part_003 lines 144-169): modify only when
needed; the modify input carries the full desired mutable field set,
summarized in the trace by the target ARN. -/
def reconcileTGInstance (env : Env) (inst : TGInstance) (annos : ServiceAnnos) (healthCheckPort : String) : Except Err TGInstance × List CloudCall :=
  match TGInstanceNeedsModification inst annos with
  | .error e => (.error e, [])
  | .ok false => (.ok inst, [])
  | .ok true =>
    let arn := inst.TargetGroupArn.getD ""
    match env.modifyTargetGroup arn with
    | .error e => (.error e, [.modifyTargetGroup arn healthCheckPort])
    | .ok out => (.ok out, [.modifyTargetGroup arn healthCheckPort])

/-- Modelled from the spec: `k8s.LookupServicePort` is not among the
provided sources; per the spec the configured value is "treated as a
named service port" and resolved against the service's declared ports
(an integer value selects by port number, unreachable from
resolveServiceHealthCheckPort which handles integers earlier). -/
def LookupServicePort (service : K8sService) (p : IntOrString) : Except Err ServicePort :=
  match p with
  | .str name =>
    match service.Ports.find? (fun sp => sp.Name == name) with
    | some sp => .ok sp
    | none => .error (.portNotFound name)
  | .int n =>
    match service.Ports.find? (fun sp => sp.Port == n) with
    | some sp => .ok sp
    | none => .error (.portNotFound (toString n))

/-- The sentinel health-check port value `healthcheck.DefaultPort`.
Modelled from the spec: the constant lives in the annotations package,
outside the provided sources; the spec calls it the literal
"traffic port" sentinel. -/
def healthcheckDefaultPort : String := "traffic-port"

/-- `resolveServiceHealthCheckPort` (part_003 lines 173-206). -/
def resolveServiceHealthCheckPort (env : Env) (ns svcName : String) (servicePortAnno : IntOrString) (targetType : String) : Except Err String :=
  match servicePortAnno with
  | .int n => .ok (toString n)
  | .str servicePort =>
    if servicePort = healthcheckDefaultPort then .ok servicePort
    else
      match env.getService (ns ++ "/" ++ svcName) with
      | .error e => .error (.wrapped "failed to resolve healthcheck service name" e)
      | .ok service =>
        match LookupServicePort service (.str servicePort) with
        | .error e => .error (.wrapped "failed to resolve healthcheck port for service" e)
        | .ok resolved =>
          if targetType = "instance" then
            if resolved.NodePort = 0 then .error (.missingNodePort svcName resolved.Name)
            else .ok (toString resolved.NodePort)
          else .ok resolved.TargetPort.asString

/-! ## LoadBalancerController (package lb, part_002) -/

/-- `sets.NewString(a...).Equal(sets.NewString(b...))`. -/
def listSetEq (a b : List String) : Bool :=
  a.all (fun s => b.contains s) && b.all (fun s => a.contains s)

/-- The IpAddressType step of `reconcileLBInstance` (part_002 203-213). -/
def setIpStep (env : Env) (inst : LBInstance) (cfg : LBConfig) (lbArn : String) : Except Err Unit × List CloudCall :=
  if inst.IpAddressType = cfg.IpAddressType then (.ok (), [])
  else
    match env.setIpAddressType lbArn cfg.IpAddressType with
    | .ok _ => (.ok (), [.setIpAddressType lbArn cfg.IpAddressType])
    | .error e => (.error (.wrapped "failed to modify IpAddressType" e), [.setIpAddressType lbArn cfg.IpAddressType])

/-- The Subnets step of `reconcileLBInstance` (part_002 215-226). -/
def setSubnetsStep (env : Env) (inst : LBInstance) (cfg : LBConfig) (lbArn : String) : Except Err Unit × List CloudCall :=
  let currentSubnets := inst.AvailabilityZones.map (fun az => az.SubnetId.getD "")
  if listSetEq currentSubnets cfg.Subnets then (.ok (), [])
  else
    match env.setSubnets lbArn cfg.Subnets with
    | .ok _ => (.ok (), [.setSubnets lbArn cfg.Subnets])
    | .error e => (.error (.wrapped "failed to modify Subnets" e), [.setSubnets lbArn cfg.Subnets])

/-- `reconcileLBInstance` (part_002 lines 201-232). -/
def reconcileLBInstance (env : Env) (inst : LBInstance) (cfg : LBConfig) : Except Err Unit × List CloudCall :=
  let lbArn := inst.LoadBalancerArn.getD ""
  match setIpStep env inst cfg lbArn with
  | (.error e, t) => (.error e, t)
  | (.ok _, t1) =>
    match setSubnetsStep env inst cfg lbArn with
    | (.error e, t) => (.error e, t1 ++ t)
    | (.ok _, t2) =>
      match env.reconcileELBTags lbArn cfg.Tags with
      | .error e => (.error (.wrapped "failed to reconcile tags" e), t1 ++ t2 ++ [.reconcileELBTags lbArn])
      | .ok _ => (.ok (), t1 ++ t2 ++ [.reconcileELBTags lbArn])

/-- `isLBInstanceNeedRecreation` (part_002 lines 234-241). -/
def isLBInstanceNeedRecreation (inst : LBInstance) (cfg : LBConfig) : Bool :=
  inst.Scheme != cfg.Scheme

/-- `newLBInstance` (part_002 lines 170-190). -/
def newLBInstance (env : Env) (cfg : LBConfig) : Except Err LBInstance × List CloudCall :=
  match env.createLoadBalancer cfg with
  | .ok inst => (.ok inst, [.createLoadBalancer cfg])
  | .error e => (.error e, [.createLoadBalancer cfg])

/-- `recreateLBInstance` (part_002 lines 192-199): delete by ARN, then
create fresh with the desired config. -/
def recreateLBInstance (env : Env) (existing : LBInstance) (cfg : LBConfig) : Except Err LBInstance × List CloudCall :=
  let existingLBArn := existing.LoadBalancerArn.getD ""
  match env.deleteLoadBalancerByArn existingLBArn with
  | .error e => (.error e, [.deleteLoadBalancerByArn existingLBArn])
  | .ok _ =>
    let r := newLBInstance env cfg
    (r.1, .deleteLoadBalancerByArn existingLBArn :: r.2)

/-- `ensureLBInstance` (part_002 lines 145-168). -/
def ensureLBInstance (env : Env) (cfg : LBConfig) : Except Err LBInstance × List CloudCall :=
  match env.getLoadBalancerByName cfg.Name with
  | .error e => (.error (.wrapped "failed to find existing LoadBalancer" e), [.getLoadBalancerByName cfg.Name])
  | .ok none =>
    let r := newLBInstance env cfg
    ((match r.1 with
      | .error e => .error (.wrapped "failed to create LoadBalancer" e)
      | .ok i => .ok i), .getLoadBalancerByName cfg.Name :: r.2)
  | .ok (some inst) =>
    if isLBInstanceNeedRecreation inst cfg then
      let r := recreateLBInstance env inst cfg
      ((match r.1 with
        | .error e => .error (.wrapped "failed to recreate LoadBalancer" e)
        | .ok i => .ok i), .getLoadBalancerByName cfg.Name :: r.2)
    else
      let r := reconcileLBInstance env inst cfg
      ((match r.1 with
        | .error e => .error e
        | .ok _ => .ok inst), .getLoadBalancerByName cfg.Name :: r.2)

/-! ## Subnet resolution (part_002 lines 283-385) -/

/-- `subnetIsUsable` (part_002 lines 378-385): false iff some already-kept
subnet shares the availability zone. -/
def subnetIsUsable (s : Subnet) (existing : List Subnet) : Bool :=
  existing.all (fun t => t.AvailabilityZone != s.AvailabilityZone)

/-- The keep-at-most-one-per-AZ loop of `clusterSubnets`
(part_002 lines 354-359). -/
def usableLoop (acc : List Subnet) : List Subnet → List Subnet
  | [] => acc
  | s :: rest => if subnetIsUsable s acc then usableLoop (acc ++ [s]) rest else usableLoop acc rest

/-- The selection as the spec words it: keep a subnet iff its availability
zone was not seen among earlier entries (first one encountered wins). -/
def specKeepFirstPerAZ (seen : List String) : List Subnet → List Subnet
  | [] => []
  | s :: rest =>
    if seen.contains s.AvailabilityZone then specKeepFirstPerAZ seen rest
    else s :: specKeepFirstPerAZ (s.AvailabilityZone :: seen) rest

/-- Structural lexicographic comparison of char lists; on the ASCII
strings this controller produces it coincides with Go's byte-wise string
order used by `sort.Strings`. -/
def charListLE : List Char → List Char → Bool
  | [], _ => true
  | _ :: _, [] => false
  | a :: as, b :: bs =>
    if a.toNat < b.toNat then true
    else if b.toNat < a.toNat then false
    else charListLE as bs

def strLE (a b : String) : Bool := charListLE a.data b.data

/-- `sort.Strings`. -/
def sortStrings (l : List String) : List String :=
  List.insertionSort (fun a b => strLE a b = true) l

/-- `strings.HasPrefix(s, p)` over char lists (structural, so that it
evaluates inside the kernel; the strings involved are ASCII). -/
def listIsPfxOf : List Char → List Char → Bool
  | [], _ => true
  | _ :: _, [] => false
  | a :: as, b :: bs => a == b && listIsPfxOf as bs

def strHasPfx (s p : String) : Bool := listIsPfxOf p.data s.data

/-- `p := strings.Split(arn, "/"); subnetID := p[len(p)-1]`: the suffix
after the last slash (the whole string when no slash occurs). -/
def lastComponentAux : List Char → List Char → List Char
  | [], cur => cur
  | c :: rest, cur => if c = '/' then lastComponentAux rest [] else lastComponentAux rest (cur ++ [c])

def lastPathComponent (arn : String) : String := String.mk (lastComponentAux arn.data [])

/-- The scheme-specific subnet marker tag key (part_002 lines 326-332);
the two key constants live in the aws package outside the provided
sources, their exact values are irrelevant to the claims. -/
def clusterTagKey (scheme : String) : Except Err String :=
  if scheme = "internal" then .ok "kubernetes.io/role/internal-elb"
  else if scheme = "internet-facing" then .ok "kubernetes.io/role/elb"
  else .error (.invalidScheme scheme)

/-- The tag-filtering loop of `clusterSubnets` (part_002 lines 339-347):
one id appended per matching tag, extracted from the ARN's last path
component. -/
def taggedSubnetIds (clusterSubnetTags : List (String × List SubnetTag)) (key : String) : List String :=
  clusterSubnetTags.flatMap (fun p =>
    (p.2.filter (fun tag => tag.Key.getD "" == key)).map (fun _ => lastPathComponent p.1))

/-- `clusterSubnets` (part_002 lines 320-373). -/
def clusterSubnets (env : Env) (scheme : String) : Except Err (List String) × List CloudCall :=
  match clusterTagKey scheme with
  | .error e => (.error e, [])
  | .ok key =>
    match env.getClusterSubnets with
    | .error e => (.error (.wrapped "failed to get AWS tags" e), [.getClusterSubnets])
    | .ok clusterSubnetTags =>
      let subnetIds := taggedSubnetIds clusterSubnetTags key
      match env.getSubnetsByNameOrID subnetIds with
      | .error e => (.error (.wrapped "unable to fetch subnets" e), [.getClusterSubnets, .getSubnetsByNameOrID subnetIds])
      | .ok o =>
        let kept := usableLoop [] o
        let out := kept.map (fun s => s.SubnetId.getD "")
        if out.length < 2 then
          (.error (.insufficientSubnets out), [.getClusterSubnets, .getSubnetsByNameOrID subnetIds])
        else
          (.ok (sortStrings out), [.getClusterSubnets, .getSubnetsByNameOrID subnetIds])

/-- `resolveSubnets` (part_002 lines 283-318). -/
def resolveSubnets (env : Env) (scheme : String) (inp : List String) : Except Err (List String) × List CloudCall :=
  if inp.isEmpty then clusterSubnets env scheme
  else
    let prefixed := inp.filter (fun s => strHasPfx s "subnet-")
    let names := inp.filter (fun s => !(strHasPfx s "subnet-"))
    let lookup : Except Err (List String) × List CloudCall :=
      if names.isEmpty then (.ok [], [])
      else
        match env.getSubnetsByNameOrID names with
        | .error e => (.error e, [.getSubnetsByNameOrID names])
        | .ok o => (.ok (o.map (fun s => s.SubnetId.getD "")), [.getSubnetsByNameOrID names])
    match lookup with
    | (.error e, t) => (.error e, t)
    | (.ok ids, t) =>
      let subnets := sortStrings (prefixed ++ ids)
      if subnets.length ≠ inp.length then (.error (.subnetMismatch inp subnets), t)
      else (.ok subnets, t)

/-- The resolved-and-sorted subnet list of the explicit path of
`resolveSubnets`: pass-through entries plus the ids of the looked-up
subnets (the lookup is skipped when no name-shaped entry exists). -/
def explicitResolved (inp : List String) (o : List Subnet) : List String :=
  sortStrings ((inp.filter (fun s => strHasPfx s "subnet-")) ++
    (if (inp.filter (fun s => !(strHasPfx s "subnet-"))).isEmpty then []
     else o.map (fun s => s.SubnetId.getD "")))

/-! ## Reconciler orchestration (part_002 lines 82-143) -/

/-- `buildLBConfig` (part_002 lines 243-263); tag maps are association
lists, annotation tags appended after (map overwrite order). -/
def buildLBConfig (env : Env) (pfx ns svcName : String) (annos : ServiceAnnos) : Except Err LBConfig × List CloudCall :=
  let lbTags := TagLB env.clusterName env.defaultTags ns svcName ++ annos.TagsLB
  match resolveSubnets env (annos.LoadBalancer.Scheme.getD "") annos.LoadBalancer.Subnets with
  | (.error e, t) => (.error e, t)
  | (.ok subnets, t) =>
    (.ok { Name := NameLB pfx ns svcName, Tags := lbTags, LBType := some "network",
           Scheme := annos.LoadBalancer.Scheme, IpAddressType := annos.LoadBalancer.IPAddressType,
           Subnets := subnets }, t)

/-- `validateLBConfig` (part_002 lines 265-281). -/
def validateLBConfig (env : Env) (ns svcName : String) (cfg : LBConfig) : Except Err Unit :=
  if env.restrictScheme ∧ cfg.Scheme.getD "" = "internet-facing" then
    if ((env.internetFacingServices.lookup ns).getD []).contains svcName then .ok ()
    else .error (.notWhitelisted ns svcName)
  else .ok ()

/-- Modelled from the spec: `tg.GroupController.GC` is not among the
provided sources; per the spec it enumerates all target groups tagged as
owned by this service that are not present in the group and deletes each.
The deletions themselves are assumed to succeed. -/
def tgGroupGC (owned group : List String) : List CloudCall :=
  (owned.filter (fun arn => !(group.contains arn))).map (fun arn => .deleteTargetGroup arn)

/-- `Reconcile` of the lb controller (part_002 lines 82-120). The
tg-group and listener-group collaborators are outside the provided
sources and enter via `Env`; their invocations are trace markers. GC is
`tgGroupGC`, modelled from the spec. -/
def Reconcile (env : Env) (pfx ns svcName : String) : Except Err LoadBalancer × List CloudCall :=
  match env.getServiceAnnos with
  | .error e => (.error e, [])
  | .ok annos =>
    match buildLBConfig env pfx ns svcName annos with
    | (.error e, t) => (.error (.wrapped "failed to build LoadBalancer configuration" e), t)
    | (.ok cfg, t0) =>
      match validateLBConfig env ns svcName cfg with
      | .error e => (.error e, t0)
      | .ok _ =>
        match ensureLBInstance env cfg with
        | (.error e, t) => (.error e, t0 ++ t)
        | (.ok inst, t1) =>
          let lbArn := inst.LoadBalancerArn.getD ""
          match env.attrsReconcile lbArn with
          | .error e => (.error (.wrapped "failed to reconcile attributes" e), t0 ++ t1 ++ [.reconcileAttributes lbArn])
          | .ok _ =>
            match env.tgGroupReconcile with
            | .error e => (.error (.wrapped "failed to reconcile targetGroups" e), t0 ++ t1 ++ [.reconcileAttributes lbArn, .tgGroupReconcile])
            | .ok group =>
              match env.lsGroupReconcile lbArn group with
              | .error e => (.error (.wrapped "failed to reconcile listeners" e), t0 ++ t1 ++ [.reconcileAttributes lbArn, .tgGroupReconcile, .lsGroupReconcile lbArn group])
              | .ok _ =>
                (.ok { Arn := lbArn, DNSName := inst.DNSName.getD "" },
                 t0 ++ t1 ++ [.reconcileAttributes lbArn, .tgGroupReconcile, .lsGroupReconcile lbArn group]
                   ++ tgGroupGC env.ownedTGArns group)

/-- `Delete` of the lb controller (part_002 lines 122-143). -/
def Delete (env : Env) (pfx ns svcName : String) : Except Err Unit × List CloudCall :=
  let lbName := NameLB pfx ns svcName
  match env.getLoadBalancerByName lbName with
  | .error e => (.error (.wrapped "failed to find existing LoadBalancer" e), [.getLoadBalancerByName lbName])
  | .ok none => (.ok (), [.getLoadBalancerByName lbName])
  | .ok (some inst) =>
    let arn := inst.LoadBalancerArn.getD ""
    match env.lsGroupDelete arn with
    | .error e => (.error (.wrapped "failed to delete listeners" e), [.getLoadBalancerByName lbName, .lsGroupDelete arn])
    | .ok _ =>
      match env.tgGroupDelete ns svcName with
      | .error e => (.error (.wrapped "failed to GC targetGroups" e), [.getLoadBalancerByName lbName, .lsGroupDelete arn, .tgGroupDelete ns svcName])
      | .ok _ =>
        match env.deleteLoadBalancerByArn arn with
        | .error e => (.error e, [.getLoadBalancerByName lbName, .lsGroupDelete arn, .tgGroupDelete ns svcName, .deleteLoadBalancerByArn arn])
        | .ok _ => (.ok (), [.getLoadBalancerByName lbName, .lsGroupDelete arn, .tgGroupDelete ns svcName, .deleteLoadBalancerByArn arn])

/-! ## Concrete sample data used by witness instantiations -/

def tgInstA : TGInstance :=
  { TargetGroupArn := some "tg-arn-a", HealthCheckPath := some "/healthz",
    HealthCheckPort := some "8080", HealthCheckProtocol := some "HTTP",
    HealthCheckIntervalSeconds := some 10, Matcher := some ⟨some "200"⟩,
    HealthyThresholdCount := some 3, UnhealthyThresholdCount := some 3 }

def tgInstNil : TGInstance :=
  { TargetGroupArn := some "tg-arn-n", HealthCheckPath := none,
    HealthCheckPort := some "8080", HealthCheckProtocol := some "TCP",
    HealthCheckIntervalSeconds := some 10, Matcher := none,
    HealthyThresholdCount := some 3, UnhealthyThresholdCount := some 3 }

def lbAnnosA : LBAnnos :=
  { Scheme := some "internal", IPAddressType := some "ipv4", Subnets := ["subnet-aaa", "subnet-bbb"] }

def hcAnnosA : HealthCheckAnnos :=
  { Path := some "/healthz", Port := "8080", Protocol := "HTTP", IntervalSeconds := some 10 }

def tgAnnosA : TGAnnos :=
  { SuccessCodes := some "200", HealthyThresholdCount := some 3, UnhealthyThresholdCount := some 3, BackendProtocol := "TCP", TargetType := "ip" }

def annosA : ServiceAnnos :=
  { LoadBalancer := lbAnnosA, HealthCheck := hcAnnosA, TargetGroup := tgAnnosA, TagsLB := [] }

def hcAnnosTCP : HealthCheckAnnos :=
  { Path := none, Port := "8080", Protocol := "TCP", IntervalSeconds := some 10 }

def tgAnnosTCP : TGAnnos :=
  { SuccessCodes := none, HealthyThresholdCount := some 3, UnhealthyThresholdCount := some 3, BackendProtocol := "TCP", TargetType := "ip" }

def annosTCP : ServiceAnnos :=
  { LoadBalancer := { Scheme := some "internal", IPAddressType := some "ipv4", Subnets := [] }, HealthCheck := hcAnnosTCP, TargetGroup := tgAnnosTCP, TagsLB := [] }

def lbInstA : LBInstance :=
  { LoadBalancerArn := some "arn-a", DNSName := some "dns-a", Scheme := some "internal",
    IpAddressType := some "ipv4",
    AvailabilityZones := [⟨some "subnet-aaa"⟩, ⟨some "subnet-bbb"⟩] }

def cfgA : LBConfig :=
  { Name := "name-a", Tags := [], LBType := some "network", Scheme := some "internal",
    IpAddressType := some "ipv4", Subnets := ["subnet-aaa", "subnet-bbb"] }

def cfgB : LBConfig :=
  { Name := "name-a", Tags := [], LBType := some "network", Scheme := some "internet-facing",
    IpAddressType := some "ipv4", Subnets := ["subnet-aaa", "subnet-bbb"] }

def spA : ServicePort :=
  { Name := "http", Port := 80, TargetPort := IntOrString.int 8080, NodePort := 31080 }

def spA0 : ServicePort :=
  { Name := "http", Port := 80, TargetPort := IntOrString.int 8080, NodePort := 0 }

def svcA : K8sService := { Ports := [spA] }

def svcA0 : K8sService := { Ports := [spA0] }

def envA : Env :=
  { getLoadBalancerByName := fun _ => .ok (some lbInstA),
    createLoadBalancer := fun cfg => .ok
      { LoadBalancerArn := some "arn-new", DNSName := some "dns-new", Scheme := cfg.Scheme,
        IpAddressType := cfg.IpAddressType, AvailabilityZones := [] },
    deleteLoadBalancerByArn := fun _ => .ok (),
    setIpAddressType := fun _ _ => .ok (),
    setSubnets := fun _ _ => .ok (),
    reconcileELBTags := fun _ _ => .ok (),
    getTargetGroupByName := fun _ => .ok (some tgInstA),
    createTargetGroup := fun _ => .ok tgInstA,
    modifyTargetGroup := fun _ => .ok tgInstA,
    getSubnetsByNameOrID := fun _ => .ok [],
    getClusterSubnets := .ok [],
    getService := fun _ => .ok svcA,
    getServiceAnnos := .ok annosA,
    attrsReconcile := fun _ => .ok (),
    tgGroupReconcile := .ok ["tg-arn-a"],
    lsGroupReconcile := fun _ _ => .ok (),
    lsGroupDelete := fun _ => .ok (),
    tgGroupDelete := fun _ _ => .ok (),
    ownedTGArns := ["tg-arn-a", "tg-arn-b"],
    clusterName := "cluster",
    defaultTags := [],
    restrictScheme := false,
    internetFacingServices := [] }

def envNone : Env := { envA with getLoadBalancerByName := fun _ => .ok none }

def envM : Env := { envA with getSubnetsByNameOrID := fun _ => .ok [] }

def subW1 : Subnet := { SubnetId := some "subnet-a", AvailabilityZone := "az1" }

def subW2 : Subnet := { SubnetId := some "subnet-c", AvailabilityZone := "az1" }

def subW3 : Subnet := { SubnetId := some "subnet-b", AvailabilityZone := "az2" }

def envW : Env := { envA with getSubnetsByNameOrID := fun _ => .ok [subW1, subW2, subW3] }

def envFew : Env := { envA with getSubnetsByNameOrID := fun _ => .ok [subW1, subW2] }

def envA0 : Env := { envA with getService := fun _ => .ok svcA0 }

theorem natBytesLE_length (c n : Nat) : (natBytesLE c n).length = c := by
  simp [natBytesLE]

theorem md5Bytes_length (msg : List Nat) : (md5Bytes msg).length = 16 := by
  simp [md5Bytes, natBytesLE_length]

theorem length_flatMap_byteHex (l : List Nat) : (l.flatMap byteHexChars).length = 2 * l.length := by
  induction l with
  | nil => rfl
  | cons a t ih =>
    simp only [List.flatMap_cons, List.length_append, List.length_cons, ih, byteHexChars,
      List.length_nil]
    omega

theorem md5Hex_data_length (s : String) : (md5Hex s).data.length = 32 := by
  show ((md5Bytes (utf8Bytes s)).flatMap byteHexChars).length = 32
  rw [length_flatMap_byteHex, md5Bytes_length]

end NLB

namespace NLB

set_option maxRecDepth 400000

/-- C3: the code joins sanitized prefix, namespace and service name with a
hyphen between each pair; the spec formula, which omits the separator
between namespace and service name, disagrees already at
prefix "nlb", namespace "a", service "b". -/
theorem c3_counterexample : NameLB "nlb" "a" "b" ≠ specNameLB "nlb" "a" "b" := by decide

/-- C3 (amended): NameLB equals the spec formula once a hyphen separator is
also placed between the sanitized namespace and the sanitized service name:
sanitize(prefix) + "-" + sanitize(namespace) + "-" + sanitize(serviceName),
truncated to 26 characters, then "-" and the first 4 hex characters of
md5(namespace+serviceName). -/
theorem c3_name_format (pfx ns svc : String) :
    NameLB pfx ns svc = specNameLBAmended pfx ns svc := by
  unfold NameLB specNameLBAmended
  by_cases h : (replaceNonAlnumWithHyphen pfx ++ "-" ++ stripNonAlnum ns ++ "-" ++ stripNonAlnum svc).length > 26
  · simp only [h, if_true]
  · simp only [h, if_false]
    have hfull : String.mk (List.take 26 (replaceNonAlnumWithHyphen pfx ++ "-" ++ stripNonAlnum ns ++ "-" ++ stripNonAlnum svc).data) = replaceNonAlnumWithHyphen pfx ++ "-" ++ stripNonAlnum ns ++ "-" ++ stripNonAlnum svc := by
      have hle : (replaceNonAlnumWithHyphen pfx ++ "-" ++ stripNonAlnum ns ++ "-" ++ stripNonAlnum svc).data.length ≤ 26 := Nat.le_of_not_lt h
      rw [List.take_of_length_le hle]
    rw [hfull]

/-- C3 witness-style instantiation of the amended format at concrete input. -/
theorem c3_name_format_witness :
    NameLB "nlb" "a" "b" = specNameLBAmended "nlb" "a" "b" :=
  c3_name_format "nlb" "a" "b"

/-- C4: NameLB is deterministic with the concrete value shown; the 4-char
suffix is the first 4 hex characters of md5("defaultfoo"); and for all
inputs the name decomposes as base ++ "-" ++ hash with the base (the part
before the suffix) at most 26 characters and the hash exactly 4. -/
theorem c4_name_deterministic :
    NameLB "nlb" "default" "foo" = "nlb-default-foo-a4dd" ∧
    String.mk ((md5Hex "defaultfoo").data.take 4) = "a4dd" ∧
    ∀ pfx ns svc : String, ∃ base hash : String,
      NameLB pfx ns svc = base ++ "-" ++ hash ∧ base.length ≤ 26 ∧ hash.length = 4 := by
  refine ⟨by decide, by decide, ?_⟩
  intro pfx ns svc
  refine ⟨(if (replaceNonAlnumWithHyphen pfx ++ "-" ++ stripNonAlnum ns ++ "-" ++ stripNonAlnum svc).length > 26
      then String.mk ((replaceNonAlnumWithHyphen pfx ++ "-" ++ stripNonAlnum ns ++ "-" ++ stripNonAlnum svc).data.take 26)
      else replaceNonAlnumWithHyphen pfx ++ "-" ++ stripNonAlnum ns ++ "-" ++ stripNonAlnum svc),
    String.mk ((md5Hex (ns ++ svc)).data.take 4), rfl, ?_, ?_⟩
  · by_cases h : (replaceNonAlnumWithHyphen pfx ++ "-" ++ stripNonAlnum ns ++ "-" ++ stripNonAlnum svc).length > 26
    · simp only [h, if_true]
      show (List.take 26 _).length ≤ 26
      rw [List.length_take]
      exact Nat.min_le_left _ _
    · simp only [h, if_false]
      exact Nat.le_of_not_lt h
  · show (List.take 4 (md5Hex (ns ++ svc)).data).length = 4
    rw [List.length_take, md5Hex_data_length]
    omega

/-! ## The string order used by sort.Strings -/

theorem charListLE_total : ∀ as bs, charListLE as bs = true ∨ charListLE bs as = true
  | [], _ => Or.inl rfl
  | _ :: _, [] => Or.inr rfl
  | a :: as, b :: bs => by
    by_cases h1 : a.toNat < b.toNat
    · left
      simp [charListLE, h1]
    · by_cases h2 : b.toNat < a.toNat
      · right
        simp [charListLE, h1, h2]
      · rcases charListLE_total as bs with h | h
        · left
          simp [charListLE, h1, h2, h]
        · right
          simp [charListLE, h1, h2, h]

theorem charListLE_trans : ∀ as bs cs, charListLE as bs = true → charListLE bs cs = true →
    charListLE as cs = true
  | [], _, _, _, _ => rfl
  | _ :: _, [], _, h1, _ => by simp [charListLE] at h1
  | _ :: _, _ :: _, [], _, h2 => by simp [charListLE] at h2
  | a :: as, b :: bs, c :: cs, h1, h2 => by
    simp only [charListLE] at h1 h2 ⊢
    rcases Nat.lt_trichotomy a.toNat b.toNat with hab | hab | hab
    · rcases Nat.lt_trichotomy b.toNat c.toNat with hbc | hbc | hbc
      · simp [show a.toNat < c.toNat by omega]
      · simp [show a.toNat < c.toNat by omega]
      · rw [if_neg (by omega), if_pos (by omega)] at h2
        exact absurd h2 (by simp)
    · rcases Nat.lt_trichotomy b.toNat c.toNat with hbc | hbc | hbc
      · simp [show a.toNat < c.toNat by omega]
      · rw [if_neg (by omega), if_neg (by omega)] at h1
        rw [if_neg (by omega), if_neg (by omega)] at h2
        rw [if_neg (by omega), if_neg (by omega)]
        exact charListLE_trans as bs cs h1 h2
      · rw [if_neg (by omega), if_pos (by omega)] at h2
        exact absurd h2 (by simp)
    · rw [if_neg (by omega), if_pos (by omega)] at h1
      exact absurd h1 (by simp)

instance : IsTotal String (fun a b => strLE a b = true) :=
  ⟨fun a b => charListLE_total a.data b.data⟩

instance : IsTrans String (fun a b => strLE a b = true) :=
  ⟨fun a b c => charListLE_trans a.data b.data c.data⟩

theorem sortStrings_sorted (l : List String) :
    (sortStrings l).Sorted (fun a b => strLE a b = true) :=
  List.sorted_insertionSort _ l

theorem sortStrings_perm (l : List String) : List.Perm (sortStrings l) l :=
  List.perm_insertionSort _ l

/-! ## Helper lemmas about the lb-controller traces -/

theorem setIpStep_all (env : Env) (inst : LBInstance) (cfg : LBConfig) (arn : String)
    (p : CloudCall → Bool) (hp : p (.setIpAddressType arn cfg.IpAddressType) = true) :
    (setIpStep env inst cfg arn).2.all p = true := by
  unfold setIpStep
  split
  · rfl
  · cases env.setIpAddressType arn cfg.IpAddressType <;> simp [hp]

theorem setSubnetsStep_all (env : Env) (inst : LBInstance) (cfg : LBConfig) (arn : String)
    (p : CloudCall → Bool) (hp : p (.setSubnets arn cfg.Subnets) = true) :
    (setSubnetsStep env inst cfg arn).2.all p = true := by
  unfold setSubnetsStep
  by_cases hc : listSetEq (inst.AvailabilityZones.map (fun az => az.SubnetId.getD "")) cfg.Subnets = true
  · simp [hc]
  · cases h : env.setSubnets arn cfg.Subnets <;> simp [hc, h, hp]

theorem reconcileLBInstance_all (env : Env) (inst : LBInstance) (cfg : LBConfig)
    (p : CloudCall → Bool)
    (hip : p (.setIpAddressType (inst.LoadBalancerArn.getD "") cfg.IpAddressType) = true)
    (hsub : p (.setSubnets (inst.LoadBalancerArn.getD "") cfg.Subnets) = true)
    (htag : p (.reconcileELBTags (inst.LoadBalancerArn.getD "")) = true) :
    (reconcileLBInstance env inst cfg).2.all p = true := by
  simp only [reconcileLBInstance]
  rcases h1 : setIpStep env inst cfg (inst.LoadBalancerArn.getD "") with ⟨r1, t1⟩
  have ha1 : t1.all p = true := by
    have h := setIpStep_all env inst cfg (inst.LoadBalancerArn.getD "") p hip
    rw [h1] at h
    exact h
  cases r1 with
  | error e => simpa using ha1
  | ok u =>
    rcases h2 : setSubnetsStep env inst cfg (inst.LoadBalancerArn.getD "") with ⟨r2, t2⟩
    have ha2 : t2.all p = true := by
      have h := setSubnetsStep_all env inst cfg (inst.LoadBalancerArn.getD "") p hsub
      rw [h2] at h
      exact h
    cases r2 with
    | error e => simp [List.all_append, ha1, ha2]
    | ok u2 =>
      cases env.reconcileELBTags (inst.LoadBalancerArn.getD "") cfg.Tags <;>
        simp [List.all_append, ha1, ha2, htag]

theorem newLBInstance_all (env : Env) (cfg : LBConfig) (p : CloudCall → Bool)
    (hp : p (.createLoadBalancer cfg) = true) :
    (newLBInstance env cfg).2.all p = true := by
  unfold newLBInstance
  cases env.createLoadBalancer cfg <;> simp [hp]

theorem recreateLBInstance_all (env : Env) (inst : LBInstance) (cfg : LBConfig)
    (p : CloudCall → Bool)
    (hdel : p (.deleteLoadBalancerByArn (inst.LoadBalancerArn.getD "")) = true)
    (hcr : p (.createLoadBalancer cfg) = true) :
    (recreateLBInstance env inst cfg).2.all p = true := by
  simp only [recreateLBInstance]
  cases hd : env.deleteLoadBalancerByArn (inst.LoadBalancerArn.getD "") with
  | error e => simp [hd, hdel]
  | ok u => simp [hd, hdel, newLBInstance_all env cfg p hcr]

theorem ensureLBInstance_all (env : Env) (cfg : LBConfig) (p : CloudCall → Bool)
    (hget : p (.getLoadBalancerByName cfg.Name) = true)
    (hcr : p (.createLoadBalancer cfg) = true)
    (hdel : ∀ arn, p (.deleteLoadBalancerByArn arn) = true)
    (hip : ∀ arn t, p (.setIpAddressType arn t) = true)
    (hsub : ∀ arn s, p (.setSubnets arn s) = true)
    (htag : ∀ arn, p (.reconcileELBTags arn) = true) :
    (ensureLBInstance env cfg).2.all p = true := by
  simp only [ensureLBInstance]
  cases hg : env.getLoadBalancerByName cfg.Name with
  | error e => simp [hg, hget]
  | ok o =>
    cases o with
    | none => simp [hg, hget, newLBInstance_all env cfg p hcr]
    | some inst =>
      by_cases hr : isLBInstanceNeedRecreation inst cfg = true
      · simp [hg, hr, hget,
          recreateLBInstance_all env inst cfg p (hdel _) hcr]
      · simp [hg, hr, hget,
          reconcileLBInstance_all env inst cfg p (hip _ _) (hsub _ _) (htag _)]

/-! ## C1, C2, C10 -/

/-- C1: when desired and live state agree, the second reconcile issues no
mutating calls: a live target group whose fields match the desired
configuration makes TGInstanceNeedsModification return false, hence
reconcileTGInstance issues no ModifyTargetGroup call, and a live load
balancer whose ip-address-type and subnet set match the desired config
makes reconcileLBInstance issue no SetIpAddressType or SetSubnets call. -/
theorem c1_steady_state_no_mutations (env : Env) (inst : TGInstance) (annos : ServiceAnnos)
    (hcPort : String) (lb : LBInstance) (cfg : LBConfig) (m : Matcher)
    (h5 : inst.Matcher = some m)
    (h1 : inst.HealthCheckPath = annos.HealthCheck.Path)
    (h2 : inst.HealthCheckPort = some annos.HealthCheck.Port)
    (h3 : inst.HealthCheckProtocol = some annos.HealthCheck.Protocol)
    (h4 : inst.HealthCheckIntervalSeconds = annos.HealthCheck.IntervalSeconds)
    (h6 : m.HttpCode = annos.TargetGroup.SuccessCodes)
    (h7 : inst.HealthyThresholdCount = annos.TargetGroup.HealthyThresholdCount)
    (h8 : inst.UnhealthyThresholdCount = annos.TargetGroup.UnhealthyThresholdCount)
    (h9 : lb.IpAddressType = cfg.IpAddressType)
    (h10 : listSetEq (lb.AvailabilityZones.map (fun az => az.SubnetId.getD "")) cfg.Subnets = true) :
    TGInstanceNeedsModification inst annos = .ok false ∧
    (reconcileTGInstance env inst annos hcPort).2.all (fun c => !(c.isModifyTargetGroup)) = true ∧
    (reconcileLBInstance env lb cfg).2.all
      (fun c => !(c.isSetIpAddressType || c.isSetSubnets)) = true := by
  have hmod : TGInstanceNeedsModification inst annos = .ok false := by
    simp [TGInstanceNeedsModification, h5, h1, h2, h3, h4, h6, h7, h8]
  refine ⟨hmod, ?_, ?_⟩
  · simp [reconcileTGInstance, hmod]
  · have hip : setIpStep env lb cfg (lb.LoadBalancerArn.getD "") = (.ok (), []) := by
      simp [setIpStep, h9]
    have hsub : setSubnetsStep env lb cfg (lb.LoadBalancerArn.getD "") = (.ok (), []) := by
      simp [setSubnetsStep, h10]
    cases htag : env.reconcileELBTags (lb.LoadBalancerArn.getD "") cfg.Tags <;>
      simp [reconcileLBInstance, hip, hsub, htag,
        CloudCall.isSetIpAddressType, CloudCall.isSetSubnets]

/-- C1 witness: concrete matching state issues no mutating call. -/
theorem c1_steady_state_no_mutations_witness :
    TGInstanceNeedsModification tgInstA annosA = .ok false ∧
    (reconcileTGInstance envA tgInstA annosA "8080").2.all (fun c => !(c.isModifyTargetGroup)) = true ∧
    (reconcileLBInstance envA lbInstA cfgA).2.all
      (fun c => !(c.isSetIpAddressType || c.isSetSubnets)) = true :=
  c1_steady_state_no_mutations envA tgInstA annosA "8080" lbInstA cfgA ⟨some "200"⟩
    rfl rfl rfl rfl rfl rfl rfl rfl rfl (by decide)

/-- C2: an existing load balancer whose scheme differs from the desired
scheme is recreated: exactly one delete by ARN followed by exactly one
create with the desired config (same name, which is the name the lookup
used); no modify call is issued for the scheme. When the scheme matches,
no delete and no create are issued. -/
theorem c2_scheme_recreate (env : Env) (cfg : LBConfig) (inst : LBInstance)
    (hfound : env.getLoadBalancerByName cfg.Name = .ok (some inst))
    (hdel : env.deleteLoadBalancerByArn (inst.LoadBalancerArn.getD "") = .ok ()) :
    (inst.Scheme ≠ cfg.Scheme →
      (ensureLBInstance env cfg).2 = [CloudCall.getLoadBalancerByName cfg.Name,
        CloudCall.deleteLoadBalancerByArn (inst.LoadBalancerArn.getD ""),
        CloudCall.createLoadBalancer cfg] ∧
      ((ensureLBInstance env cfg).2.countP (fun c => c.isDeleteLoadBalancerByArn)) = 1 ∧
      ((ensureLBInstance env cfg).2.countP (fun c => c.isCreateLoadBalancer)) = 1) ∧
    (inst.Scheme = cfg.Scheme →
      (ensureLBInstance env cfg).2.all
        (fun c => !(c.isDeleteLoadBalancerByArn || c.isCreateLoadBalancer)) = true) := by
  constructor
  · intro hne
    have hrec : isLBInstanceNeedRecreation inst cfg = true := by
      simp [isLBInstanceNeedRecreation, bne_iff_ne, hne]
    cases hc : env.createLoadBalancer cfg <;>
      simp [ensureLBInstance, hfound, hrec, recreateLBInstance, hdel, newLBInstance, hc,
        List.countP_cons, List.countP_nil, CloudCall.isDeleteLoadBalancerByArn,
        CloudCall.isCreateLoadBalancer]
  · intro heq
    have hrec : isLBInstanceNeedRecreation inst cfg = false := by
      simp [isLBInstanceNeedRecreation, heq]
    have hall := reconcileLBInstance_all env inst cfg
      (fun c => !(c.isDeleteLoadBalancerByArn || c.isCreateLoadBalancer)) rfl rfl rfl
    simp [ensureLBInstance, hfound, hrec]
    rcases h1 : reconcileLBInstance env inst cfg with ⟨r1, t1⟩
    rw [h1] at hall
    cases r1 <;>
      simpa [CloudCall.isDeleteLoadBalancerByArn, CloudCall.isCreateLoadBalancer] using hall

/-- C2 witness: scheme mismatch at concrete input yields exactly
delete-then-create; scheme match yields neither. -/
theorem c2_scheme_recreate_witness :
    ((ensureLBInstance envA cfgB).2 = [CloudCall.getLoadBalancerByName cfgB.Name,
        CloudCall.deleteLoadBalancerByArn "arn-a", CloudCall.createLoadBalancer cfgB] ∧
      ((ensureLBInstance envA cfgB).2.countP (fun c => c.isDeleteLoadBalancerByArn)) = 1 ∧
      ((ensureLBInstance envA cfgB).2.countP (fun c => c.isCreateLoadBalancer)) = 1) ∧
    (ensureLBInstance envA cfgA).2.all
      (fun c => !(c.isDeleteLoadBalancerByArn || c.isCreateLoadBalancer)) = true :=
  ⟨(c2_scheme_recreate envA cfgB lbInstA rfl rfl).1 (by decide),
   (c2_scheme_recreate envA cfgA lbInstA rfl rfl).2 rfl⟩

/-- C10: TGInstanceNeedsModification dereferences the live instance's
Matcher unconditionally — with a nil Matcher it faults for every
annotation configuration, HTTP or not — and with a non-nil Matcher it is
well-defined (returns some boolean). -/
theorem c10_matcher_deref_requires_nonnil (inst : TGInstance) (annos : ServiceAnnos)
    (hnil : inst.Matcher = none) :
    TGInstanceNeedsModification inst annos = .error .nilPointerDereference ∧
    (∀ inst2 : TGInstance, ∀ m : Matcher, inst2.Matcher = some m →
      ∃ b, TGInstanceNeedsModification inst2 annos = .ok b) := by
  constructor
  · simp [TGInstanceNeedsModification, hnil]
  · intro inst2 m h
    simp only [TGInstanceNeedsModification, h]
    exact ⟨_, rfl⟩

/-- C10 witness: a TCP-health-checked live target group with no matcher
faults, while one carrying a matcher is well-defined. -/
theorem c10_matcher_deref_requires_nonnil_witness :
    TGInstanceNeedsModification tgInstNil annosTCP = .error .nilPointerDereference ∧
    (∃ b, TGInstanceNeedsModification tgInstA annosTCP = .ok b) :=
  ⟨(c10_matcher_deref_requires_nonnil tgInstNil annosTCP rfl).1,
   (c10_matcher_deref_requires_nonnil tgInstNil annosTCP rfl).2 tgInstA ⟨some "200"⟩ rfl⟩

/-- C9: Delete looks up the LB by its deterministic name; a missing LB
returns ok and only the lookup call is issued (no cloud mutation); a
present LB is torn down in order listeners, target groups, load balancer,
and any failing step aborts the remaining steps and returns the error. -/
theorem c9_delete_order (env : Env) (pfx ns svcName : String) :
    (env.getLoadBalancerByName (NameLB pfx ns svcName) = .ok none →
      Delete env pfx ns svcName = (.ok (), [.getLoadBalancerByName (NameLB pfx ns svcName)])) ∧
    (∀ inst, env.getLoadBalancerByName (NameLB pfx ns svcName) = .ok (some inst) →
      (∀ e, env.lsGroupDelete (inst.LoadBalancerArn.getD "") = .error e →
        Delete env pfx ns svcName = (.error (.wrapped "failed to delete listeners" e),
          [.getLoadBalancerByName (NameLB pfx ns svcName),
           .lsGroupDelete (inst.LoadBalancerArn.getD "")])) ∧
      (env.lsGroupDelete (inst.LoadBalancerArn.getD "") = .ok () →
        (∀ e, env.tgGroupDelete ns svcName = .error e →
          Delete env pfx ns svcName = (.error (.wrapped "failed to GC targetGroups" e),
            [.getLoadBalancerByName (NameLB pfx ns svcName),
             .lsGroupDelete (inst.LoadBalancerArn.getD ""), .tgGroupDelete ns svcName])) ∧
        (env.tgGroupDelete ns svcName = .ok () →
          (∀ e, env.deleteLoadBalancerByArn (inst.LoadBalancerArn.getD "") = .error e →
            Delete env pfx ns svcName = (.error e,
              [.getLoadBalancerByName (NameLB pfx ns svcName),
               .lsGroupDelete (inst.LoadBalancerArn.getD ""), .tgGroupDelete ns svcName,
               .deleteLoadBalancerByArn (inst.LoadBalancerArn.getD "")])) ∧
          (env.deleteLoadBalancerByArn (inst.LoadBalancerArn.getD "") = .ok () →
            Delete env pfx ns svcName = (.ok (),
              [.getLoadBalancerByName (NameLB pfx ns svcName),
               .lsGroupDelete (inst.LoadBalancerArn.getD ""), .tgGroupDelete ns svcName,
               .deleteLoadBalancerByArn (inst.LoadBalancerArn.getD "")]))))) := by
  refine ⟨?_, ?_⟩
  · intro h
    simp [Delete, h]
  · intro inst hfound
    refine ⟨?_, ?_⟩
    · intro e hls
      simp [Delete, hfound, hls]
    · intro hls
      refine ⟨?_, ?_⟩
      · intro e htg
        simp [Delete, hfound, hls, htg]
      · intro htg
        refine ⟨?_, ?_⟩
        · intro e hdel
          simp [Delete, hfound, hls, htg, hdel]
        · intro hdel
          simp [Delete, hfound, hls, htg, hdel]

/-- C9 witness: a missing LB yields ok with only the lookup; a present LB
yields the full ordered teardown. -/
theorem c9_delete_order_witness :
    Delete envNone "nlb" "default" "foo" =
      (.ok (), [.getLoadBalancerByName (NameLB "nlb" "default" "foo")]) ∧
    Delete envA "nlb" "default" "foo" = (.ok (),
      [.getLoadBalancerByName (NameLB "nlb" "default" "foo"), .lsGroupDelete "arn-a",
       .tgGroupDelete "default" "foo", .deleteLoadBalancerByArn "arn-a"]) :=
  ⟨(c9_delete_order envNone "nlb" "default" "foo").1 rfl,
   ((((c9_delete_order envA "nlb" "default" "foo").2 lbInstA rfl).2 rfl).2 rfl).2 rfl⟩

/-- C7: a numeric configured health-check port is returned unchanged; the
traffic-port sentinel is returned unchanged for every store; a named port
is looked up on the service, yielding the node port as a string for
target type instance (an error when the allocated node port is zero) and
the resolved target (container) port for target type ip. -/
theorem c7_health_check_port_resolution (env : Env) (ns svcName portName targetType : String)
    (service : K8sService) (sp : ServicePort)
    (hsent : portName ≠ healthcheckDefaultPort)
    (hsvc : env.getService (ns ++ "/" ++ svcName) = .ok service)
    (hfind : service.Ports.find? (fun q => q.Name == portName) = some sp) :
    (∀ env2 : Env, ∀ n : Int,
      resolveServiceHealthCheckPort env2 ns svcName (.int n) targetType = .ok (toString n)) ∧
    (∀ env2 : Env,
      resolveServiceHealthCheckPort env2 ns svcName (.str healthcheckDefaultPort) targetType
        = .ok healthcheckDefaultPort) ∧
    (sp.NodePort ≠ 0 →
      resolveServiceHealthCheckPort env ns svcName (.str portName) "instance"
        = .ok (toString sp.NodePort)) ∧
    (sp.NodePort = 0 →
      resolveServiceHealthCheckPort env ns svcName (.str portName) "instance"
        = .error (.missingNodePort svcName sp.Name)) ∧
    resolveServiceHealthCheckPort env ns svcName (.str portName) "ip"
      = .ok sp.TargetPort.asString := by
  refine ⟨fun env2 n => rfl, fun env2 => by simp [resolveServiceHealthCheckPort], ?_, ?_, ?_⟩
  · intro hnp
    simp [resolveServiceHealthCheckPort, hsent, hsvc, LookupServicePort, hfind, hnp]
  · intro hnp
    simp [resolveServiceHealthCheckPort, hsent, hsvc, LookupServicePort, hfind, hnp]
  · simp [resolveServiceHealthCheckPort, hsent, hsvc, LookupServicePort, hfind]

/-- C7 witness: numeric 8080 passes through; the sentinel passes through;
named port "http" (container 8080, node 31080) resolves to "31080" for
instance targets, errors with node port zero, and to "8080" for ip
targets. -/
theorem c7_health_check_port_resolution_witness :
    resolveServiceHealthCheckPort envA "default" "foo" (.int 8080) "instance" = .ok "8080" ∧
    resolveServiceHealthCheckPort envA "default" "foo" (.str "traffic-port") "ip" = .ok "traffic-port" ∧
    resolveServiceHealthCheckPort envA "default" "foo" (.str "http") "instance" = .ok "31080" ∧
    resolveServiceHealthCheckPort envA0 "default" "foo" (.str "http") "instance"
      = .error (.missingNodePort "foo" "http") ∧
    resolveServiceHealthCheckPort envA "default" "foo" (.str "http") "ip" = .ok "8080" :=
  ⟨(c7_health_check_port_resolution envA "default" "foo" "http" "instance" svcA spA
      (by decide) rfl rfl).1 envA 8080,
   (c7_health_check_port_resolution envA "default" "foo" "http" "ip" svcA spA
      (by decide) rfl rfl).2.1 envA,
   (c7_health_check_port_resolution envA "default" "foo" "http" "instance" svcA spA
      (by decide) rfl rfl).2.2.1 (by decide),
   (c7_health_check_port_resolution envA0 "default" "foo" "http" "instance" svcA0 spA0
      (by decide) rfl rfl).2.2.2.1 rfl,
   (c7_health_check_port_resolution envA "default" "foo" "http" "ip" svcA spA
      (by decide) rfl rfl).2.2.2.2⟩

/-- The explicit-list behaviour of resolveSubnets as one equation. -/
theorem resolveSubnets_explicit (env : Env) (scheme : String) (inp : List String)
    (o : List Subnet) (hne : inp.isEmpty = false)
    (ho : env.getSubnetsByNameOrID (inp.filter (fun s => !(strHasPfx s "subnet-"))) = .ok o) :
    (resolveSubnets env scheme inp).1 =
      (if (explicitResolved inp o).length ≠ inp.length
       then .error (.subnetMismatch inp (explicitResolved inp o))
       else .ok (explicitResolved inp o)) := by
  by_cases hn : (inp.filter (fun s => !(strHasPfx s "subnet-"))).isEmpty
  · simp only [resolveSubnets, hne, Bool.false_eq_true, if_false, hn, if_true, explicitResolved]
    split <;> simp_all
  · simp only [resolveSubnets, hne, Bool.false_eq_true, if_false, hn, ho, explicitResolved]
    split <;> simp_all

/-- C6: for a non-empty explicit subnet list, entries prefixed "subnet-"
pass through unresolved while the remaining entries are resolved by a
name-or-ID lookup; when the resolved count differs from the input count
the result is an error carrying both the requested and the resolved
lists — a partially-resolved subset is never returned silently; when the
counts match, the sorted resolved list is returned. -/
theorem c6_explicit_subnet_mismatch (env : Env) (scheme : String) (inp : List String)
    (o : List Subnet) (hne : inp ≠ [])
    (ho : env.getSubnetsByNameOrID (inp.filter (fun s => !(strHasPfx s "subnet-"))) = .ok o) :
    ((explicitResolved inp o).length ≠ inp.length →
      (resolveSubnets env scheme inp).1
        = .error (.subnetMismatch inp (explicitResolved inp o))) ∧
    ((explicitResolved inp o).length = inp.length →
      (resolveSubnets env scheme inp).1 = .ok (explicitResolved inp o)) ∧
    (∀ out, (resolveSubnets env scheme inp).1 = .ok out → out.length = inp.length) := by
  have hb : inp.isEmpty = false := List.isEmpty_eq_false.mpr hne
  have he := resolveSubnets_explicit env scheme inp o hb ho
  refine ⟨?_, ?_, ?_⟩
  · intro hlen
    rw [he, if_pos hlen]
  · intro hlen
    rw [he, if_neg (by omega)]
  · intro out hout
    rw [he] at hout
    by_cases hlen : (explicitResolved inp o).length = inp.length
    · rw [if_neg (by omega)] at hout
      cases hout
      exact hlen
    · rw [if_pos (by omega)] at hout
      cases hout

/-- C6 witness: the spec example: explicit list [subnet-aaa, prod-subnet]
where prod-subnet resolves to nothing fails with the mismatch error that
reports both lists, and a fully-resolvable list is returned sorted. -/
theorem c6_explicit_subnet_mismatch_witness :
    (resolveSubnets envM "internal" ["subnet-aaa", "prod-subnet"]).1
      = .error (.subnetMismatch ["subnet-aaa", "prod-subnet"] ["subnet-aaa"]) ∧
    (resolveSubnets envM "internal" ["subnet-bbb", "subnet-aaa"]).1
      = .ok ["subnet-aaa", "subnet-bbb"] :=
  ⟨(c6_explicit_subnet_mismatch envM "internal" ["subnet-aaa", "prod-subnet"] []
      (by decide) rfl).1 (by decide),
   (c6_explicit_subnet_mismatch envM "internal" ["subnet-bbb", "subnet-aaa"] []
      (by decide) rfl).2.1 (by decide)⟩

/-! ## Lemmas about the one-subnet-per-AZ selection (C5) -/

theorem contains_append (l1 l2 : List String) (a : String) :
    (l1 ++ l2).contains a = (l1.contains a || l2.contains a) := by
  induction l1 with
  | nil => rfl
  | cons x t ih => simp [List.contains_cons, ih, Bool.or_assoc]

theorem strBeq_comm (a b : String) : (a == b) = (b == a) := by
  by_cases h : a = b
  · subst h
    rfl
  · rw [beq_eq_false_iff_ne.mpr h, beq_eq_false_iff_ne.mpr (Ne.symm h)]

theorem subnetIsUsable_eq (s : Subnet) (acc : List Subnet) :
    subnetIsUsable s acc
      = !((acc.map (fun t => t.AvailabilityZone)).contains s.AvailabilityZone) := by
  induction acc with
  | nil => rfl
  | cons a t ih =>
    show (a.AvailabilityZone != s.AvailabilityZone && subnetIsUsable s t)
        = !((List.map (fun t => t.AvailabilityZone) (a :: t)).contains s.AvailabilityZone)
    rw [ih, List.map_cons, List.contains_cons, Bool.not_or,
      strBeq_comm s.AvailabilityZone a.AvailabilityZone]
    rfl

theorem specKeep_congr : ∀ (l : List Subnet) (s1 s2 : List String),
    (∀ a, s1.contains a = s2.contains a) →
    specKeepFirstPerAZ s1 l = specKeepFirstPerAZ s2 l
  | [], _, _, _ => rfl
  | s :: rest, s1, s2, h => by
    simp only [specKeepFirstPerAZ, h s.AvailabilityZone]
    by_cases hc : s2.contains s.AvailabilityZone = true
    · simp only [hc, if_true]
      exact specKeep_congr rest s1 s2 h
    · simp only [eq_false_of_ne_true hc, Bool.false_eq_true, if_false]
      rw [specKeep_congr rest (s.AvailabilityZone :: s1) (s.AvailabilityZone :: s2)
        (fun a => by
          show ((a == s.AvailabilityZone) || s1.contains a)
              = ((a == s.AvailabilityZone) || s2.contains a)
          rw [h a])]

theorem usableLoop_eq_specKeep : ∀ (l : List Subnet) (acc : List Subnet),
    usableLoop acc l = acc ++ specKeepFirstPerAZ (acc.map (fun t => t.AvailabilityZone)) l
  | [], acc => by simp [usableLoop, specKeepFirstPerAZ]
  | s :: rest, acc => by
    simp only [usableLoop, specKeepFirstPerAZ, subnetIsUsable_eq s acc]
    by_cases hc : (acc.map (fun t => t.AvailabilityZone)).contains s.AvailabilityZone = true
    · simp only [hc, Bool.not_true, Bool.false_eq_true, if_false, if_true]
      exact usableLoop_eq_specKeep rest acc
    · simp only [eq_false_of_ne_true hc, Bool.not_false, if_true, Bool.false_eq_true, if_false]
      rw [usableLoop_eq_specKeep rest (acc ++ [s])]
      rw [specKeep_congr rest ((acc ++ [s]).map (fun t => t.AvailabilityZone))
        (s.AvailabilityZone :: acc.map (fun t => t.AvailabilityZone))
        (fun a => by
          rw [List.map_append, contains_append]
          show ((acc.map (fun t => t.AvailabilityZone)).contains a
              || ((a == s.AvailabilityZone) || false))
            = ((a == s.AvailabilityZone) || (acc.map (fun t => t.AvailabilityZone)).contains a)
          rw [Bool.or_false, Bool.or_comm])]
      simp

theorem specKeep_az_mem : ∀ (l : List Subnet) (seen : List String) (a : String),
    (a ∈ (specKeepFirstPerAZ seen l).map (fun t => t.AvailabilityZone)) ↔
      (a ∈ l.map (fun t => t.AvailabilityZone) ∧ seen.contains a = false)
  | [], seen, a => by simp [specKeepFirstPerAZ]
  | s :: rest, seen, a => by
    simp only [specKeepFirstPerAZ]
    by_cases hc : seen.contains s.AvailabilityZone = true
    · rw [if_pos hc, specKeep_az_mem rest seen a]
      simp only [List.map_cons, List.mem_cons]
      constructor
      · rintro ⟨hm, hs⟩
        exact ⟨Or.inr hm, hs⟩
      · rintro ⟨hm | hm, hs⟩
        · subst hm
          rw [hc] at hs
          cases hs
        · exact ⟨hm, hs⟩
    · rw [if_neg hc]
      simp only [List.map_cons, List.mem_cons]
      rw [specKeep_az_mem rest (s.AvailabilityZone :: seen) a]
      have hcf : seen.contains s.AvailabilityZone = false := eq_false_of_ne_true hc
      constructor
      · rintro (h | ⟨hm, hs⟩)
        · subst h
          exact ⟨Or.inl rfl, hcf⟩
        · rw [show (s.AvailabilityZone :: seen).contains a
              = ((a == s.AvailabilityZone) || seen.contains a) from rfl] at hs
          rcases Bool.or_eq_false_iff.mp hs with ⟨_, h2⟩
          exact ⟨Or.inr hm, h2⟩
      · rintro ⟨hm | hm, hs⟩
        · subst hm
          exact Or.inl rfl
        · by_cases ha : a = s.AvailabilityZone
          · subst ha
            exact Or.inl rfl
          · refine Or.inr ⟨hm, ?_⟩
            rw [show (s.AvailabilityZone :: seen).contains a
                = ((a == s.AvailabilityZone) || seen.contains a) from rfl]
            rw [beq_eq_false_iff_ne.mpr ha, hs]
            rfl

theorem specKeep_az_nodup : ∀ (l : List Subnet) (seen : List String),
    ((specKeepFirstPerAZ seen l).map (fun t => t.AvailabilityZone)).Nodup
  | [], seen => by simp [specKeepFirstPerAZ]
  | s :: rest, seen => by
    simp only [specKeepFirstPerAZ]
    by_cases hc : seen.contains s.AvailabilityZone = true
    · rw [if_pos hc]
      exact specKeep_az_nodup rest seen
    · rw [if_neg hc]
      simp only [List.map_cons]
      refine List.nodup_cons.mpr ⟨?_, specKeep_az_nodup rest _⟩
      intro hmem
      rw [specKeep_az_mem rest _ _] at hmem
      rcases hmem with ⟨_, hs⟩
      simp [List.contains_cons] at hs

theorem specKeep_az_toFinset (o : List Subnet) :
    ((specKeepFirstPerAZ [] o).map (fun t => t.AvailabilityZone)).toFinset
      = (o.map (fun t => t.AvailabilityZone)).toFinset := by
  ext a
  simp [List.mem_toFinset, specKeep_az_mem o [] a]

/-- C5: the auto-discovery loop keeps at most one subnet per availability
zone with the first-encountered subnet winning (it equals the seen-AZ
selection), the kept AZs are pairwise distinct and the kept count is the
number of distinct AZs of the resolved list; fewer than two kept subnets
is an error carrying the kept ids, otherwise the kept ids are returned
sorted lexicographically (a sorted permutation of the kept ids). -/
theorem c5_cluster_subnets (env : Env) (scheme key : String)
    (m : List (String × List SubnetTag)) (o : List Subnet)
    (hkey : clusterTagKey scheme = .ok key)
    (hm : env.getClusterSubnets = .ok m)
    (ho : env.getSubnetsByNameOrID (taggedSubnetIds m key) = .ok o) :
    usableLoop [] o = specKeepFirstPerAZ [] o ∧
    ((usableLoop [] o).map (fun t => t.AvailabilityZone)).Nodup ∧
    (usableLoop [] o).length = ((o.map (fun t => t.AvailabilityZone)).toFinset).card ∧
    ((usableLoop [] o).length < 2 →
      (clusterSubnets env scheme).1 = .error (.insufficientSubnets
        ((usableLoop [] o).map (fun t => t.SubnetId.getD "")))) ∧
    (¬ (usableLoop [] o).length < 2 →
      (clusterSubnets env scheme).1 = .ok (sortStrings
        ((usableLoop [] o).map (fun t => t.SubnetId.getD "")))) ∧
    (sortStrings ((usableLoop [] o).map (fun t => t.SubnetId.getD ""))).Sorted
      (fun a b => strLE a b = true) ∧
    List.Perm (sortStrings ((usableLoop [] o).map (fun t => t.SubnetId.getD "")))
      ((usableLoop [] o).map (fun t => t.SubnetId.getD "")) := by
  have h1 : usableLoop [] o = specKeepFirstPerAZ [] o := by
    simpa using usableLoop_eq_specKeep o []
  refine ⟨h1, ?_, ?_, ?_, ?_, sortStrings_sorted _, sortStrings_perm _⟩
  · rw [h1]
    exact specKeep_az_nodup o []
  · rw [h1]
    have hnd := specKeep_az_nodup o []
    calc (specKeepFirstPerAZ [] o).length
        = ((specKeepFirstPerAZ [] o).map (fun t => t.AvailabilityZone)).length :=
          (List.length_map _ _).symm
      _ = ((specKeepFirstPerAZ [] o).map (fun t => t.AvailabilityZone)).toFinset.card :=
          (List.toFinset_card_of_nodup hnd).symm
      _ = (o.map (fun t => t.AvailabilityZone)).toFinset.card := by
          rw [specKeep_az_toFinset]
  · intro hlt
    simp [clusterSubnets, hkey, hm, ho, List.length_map, hlt]
  · intro hlt
    simp [clusterSubnets, hkey, hm, ho, List.length_map, hlt]

/-- C5 witness: three resolved subnets over two AZs keep the first of each
AZ and return the sorted ids; two subnets in one AZ keep one and fail. -/
theorem c5_cluster_subnets_witness :
    usableLoop [] [subW1, subW2, subW3] = [subW1, subW3] ∧
    (clusterSubnets envW "internal").1 = .ok ["subnet-a", "subnet-b"] ∧
    (clusterSubnets envFew "internal").1 = .error (.insufficientSubnets ["subnet-a"]) :=
  ⟨by decide,
   (c5_cluster_subnets envW "internal" "kubernetes.io/role/internal-elb" []
      [subW1, subW2, subW3] rfl rfl rfl).2.2.2.2.1 (by decide),
   (c5_cluster_subnets envFew "internal" "kubernetes.io/role/internal-elb" []
      [subW1, subW2] rfl rfl rfl).2.2.2.1 (by decide)⟩

/-! ## Lemmas for C8: traces before GC contain no target-group deletion -/

theorem clusterSubnets_all (env : Env) (scheme : String) (p : CloudCall → Bool)
    (hg : p .getClusterSubnets = true) (hl : ∀ ns1, p (.getSubnetsByNameOrID ns1) = true) :
    (clusterSubnets env scheme).2.all p = true := by
  unfold clusterSubnets
  cases clusterTagKey scheme with
  | error e => rfl
  | ok key =>
    cases hm : env.getClusterSubnets with
    | error e => simp [hm, hg]
    | ok m =>
      cases ho : env.getSubnetsByNameOrID (taggedSubnetIds m key) with
      | error e => simp [hm, ho, hg, hl]
      | ok o =>
        simp only [hm, ho]
        split <;> simp [hg, hl]

theorem resolveSubnets_all (env : Env) (scheme : String) (inp : List String)
    (p : CloudCall → Bool)
    (hg : p .getClusterSubnets = true) (hl : ∀ ns1, p (.getSubnetsByNameOrID ns1) = true) :
    (resolveSubnets env scheme inp).2.all p = true := by
  unfold resolveSubnets
  by_cases hi : inp.isEmpty = true
  · simp only [hi, if_true]
    exact clusterSubnets_all env scheme p hg hl
  · simp only [eq_false_of_ne_true hi, Bool.false_eq_true, if_false]
    by_cases hn : (inp.filter (fun s => !(strHasPfx s "subnet-"))).isEmpty = true
    · simp only [hn, if_true]
      split <;> simp
    · simp only [eq_false_of_ne_true hn, Bool.false_eq_true, if_false]
      cases ho : env.getSubnetsByNameOrID (inp.filter (fun s => !(strHasPfx s "subnet-"))) with
      | error e => simp [ho, hl]
      | ok o =>
        simp only [ho]
        split <;> simp [hl]

theorem buildLBConfig_all (env : Env) (pfx ns svcName : String) (annos : ServiceAnnos)
    (p : CloudCall → Bool)
    (hg : p .getClusterSubnets = true) (hl : ∀ ns1, p (.getSubnetsByNameOrID ns1) = true) :
    (buildLBConfig env pfx ns svcName annos).2.all p = true := by
  simp only [buildLBConfig]
  have h := resolveSubnets_all env (annos.LoadBalancer.Scheme.getD "")
    annos.LoadBalancer.Subnets p hg hl
  rcases hr : resolveSubnets env (annos.LoadBalancer.Scheme.getD "") annos.LoadBalancer.Subnets
    with ⟨r, t⟩
  rw [hr] at h
  cases r <;> simpa using h

theorem tgGroupGC_mem_stale (owned group : List String) (arn : String)
    (h1 : arn ∈ owned) (h2 : group.contains arn = false) :
    CloudCall.deleteTargetGroup arn ∈ tgGroupGC owned group := by
  simp only [tgGroupGC, List.mem_map]
  exact ⟨arn, List.mem_filter.mpr ⟨h1, by rw [h2]; rfl⟩, rfl⟩

theorem tgGroupGC_not_mem_present (owned group : List String) (arn : String)
    (h : group.contains arn = true) :
    CloudCall.deleteTargetGroup arn ∉ tgGroupGC owned group := by
  intro hmem
  simp only [tgGroupGC, List.mem_map] at hmem
  rcases hmem with ⟨x, hx, he⟩
  cases he
  have hf := (List.mem_filter.mp hx).2
  rw [h] at hf
  cases hf

/-- C8: within every successful Reconcile the trace decomposes as a
GC-free stage sequence, then the listener-group convergence marker for
the same group the GC uses, then the GC deletions; the tg-group result is
that group and the listener convergence succeeded on it; GC deletes every
owned target group absent from the group and touches none present in it. -/
theorem c8_gc_after_listener_convergence (env : Env) (pfx ns svcName : String)
    (lb : LoadBalancer)
    (hsucc : (Reconcile env pfx ns svcName).1 = .ok lb) :
    ∃ pre group,
      (Reconcile env pfx ns svcName).2
        = pre ++ [CloudCall.lsGroupReconcile lb.Arn group] ++ tgGroupGC env.ownedTGArns group ∧
      env.tgGroupReconcile = .ok group ∧
      env.lsGroupReconcile lb.Arn group = .ok () ∧
      pre.all (fun c => !(c.isDeleteTargetGroup)) = true ∧
      (∀ arn, arn ∈ env.ownedTGArns → group.contains arn = false →
        CloudCall.deleteTargetGroup arn ∈ tgGroupGC env.ownedTGArns group) ∧
      (∀ arn, group.contains arn = true →
        CloudCall.deleteTargetGroup arn ∉ tgGroupGC env.ownedTGArns group) := by
  rcases ha : env.getServiceAnnos with e | annos
  · have hR : (Reconcile env pfx ns svcName).1 = .error e := by
      simp [Reconcile, ha]
    rw [hR] at hsucc
    simp at hsucc
  rcases hb : buildLBConfig env pfx ns svcName annos with ⟨e | cfg, t0⟩
  · have hR : (Reconcile env pfx ns svcName).1
        = .error (.wrapped "failed to build LoadBalancer configuration" e) := by
      simp [Reconcile, ha, hb]
    rw [hR] at hsucc
    simp at hsucc
  rcases hv : validateLBConfig env ns svcName cfg with e | u0
  · have hR : (Reconcile env pfx ns svcName).1 = .error e := by
      simp [Reconcile, ha, hb, hv]
    rw [hR] at hsucc
    simp at hsucc
  cases u0
  rcases he : ensureLBInstance env cfg with ⟨e | inst, t1⟩
  · have hR : (Reconcile env pfx ns svcName).1 = .error e := by
      simp [Reconcile, ha, hb, hv, he]
    rw [hR] at hsucc
    simp at hsucc
  rcases hat : env.attrsReconcile (inst.LoadBalancerArn.getD "") with e | u1
  · have hR : (Reconcile env pfx ns svcName).1
        = .error (.wrapped "failed to reconcile attributes" e) := by
      simp [Reconcile, ha, hb, hv, he, hat]
    rw [hR] at hsucc
    simp at hsucc
  cases u1
  rcases htg : env.tgGroupReconcile with e | group
  · have hR : (Reconcile env pfx ns svcName).1
        = .error (.wrapped "failed to reconcile targetGroups" e) := by
      simp [Reconcile, ha, hb, hv, he, hat, htg]
    rw [hR] at hsucc
    simp at hsucc
  rcases hls : env.lsGroupReconcile (inst.LoadBalancerArn.getD "") group with e | u2
  · have hR : (Reconcile env pfx ns svcName).1
        = .error (.wrapped "failed to reconcile listeners" e) := by
      simp [Reconcile, ha, hb, hv, he, hat, htg, hls]
    rw [hR] at hsucc
    simp at hsucc
  cases u2
  have hR : Reconcile env pfx ns svcName
      = (.ok { Arn := inst.LoadBalancerArn.getD "", DNSName := inst.DNSName.getD "" },
         t0 ++ t1 ++ [CloudCall.reconcileAttributes (inst.LoadBalancerArn.getD ""),
           CloudCall.tgGroupReconcile,
           CloudCall.lsGroupReconcile (inst.LoadBalancerArn.getD "") group]
           ++ tgGroupGC env.ownedTGArns group) := by
    simp [Reconcile, ha, hb, hv, he, hat, htg, hls]
  rw [hR] at hsucc
  injection hsucc with hlb
  subst hlb
  have h0 : t0.all (fun c => !(c.isDeleteTargetGroup)) = true := by
    have h := buildLBConfig_all env pfx ns svcName annos
      (fun c => !(c.isDeleteTargetGroup)) rfl (fun _ => rfl)
    rw [hb] at h
    exact h
  have h1 : t1.all (fun c => !(c.isDeleteTargetGroup)) = true := by
    have h := ensureLBInstance_all env cfg
      (fun c => !(c.isDeleteTargetGroup)) rfl rfl (fun _ => rfl)
      (fun _ _ => rfl) (fun _ _ => rfl) (fun _ => rfl)
    rw [he] at h
    exact h
  refine ⟨t0 ++ t1 ++ [CloudCall.reconcileAttributes (inst.LoadBalancerArn.getD ""),
      CloudCall.tgGroupReconcile], group, ?_, rfl, hls, ?_, ?_, ?_⟩
  · rw [hR]
    simp
  · simp only [List.all_append, h0, h1, Bool.and_true, Bool.true_and]
    rfl
  · exact fun arn hmem hng => tgGroupGC_mem_stale env.ownedTGArns group arn hmem hng
  · exact fun arn hg => tgGroupGC_not_mem_present env.ownedTGArns group arn hg

/-- C8 witness: a concrete successful reconcile whose owned target groups
are A and B while the built group contains only A: GC deletes exactly B;
the existence decomposition is instantiated by the theorem. -/
theorem c8_gc_after_listener_convergence_witness :
    (Reconcile envA "nlb" "default" "foo").1 = .ok { Arn := "arn-a", DNSName := "dns-a" } ∧
    tgGroupGC envA.ownedTGArns ["tg-arn-a"] = [CloudCall.deleteTargetGroup "tg-arn-b"] ∧
    (∃ pre group,
      (Reconcile envA "nlb" "default" "foo").2
        = pre ++ [CloudCall.lsGroupReconcile (LoadBalancer.Arn { Arn := "arn-a", DNSName := "dns-a" }) group]
          ++ tgGroupGC envA.ownedTGArns group ∧
      envA.tgGroupReconcile = .ok group ∧
      envA.lsGroupReconcile (LoadBalancer.Arn { Arn := "arn-a", DNSName := "dns-a" }) group = .ok () ∧
      pre.all (fun c => !(c.isDeleteTargetGroup)) = true ∧
      (∀ arn, arn ∈ envA.ownedTGArns → group.contains arn = false →
        CloudCall.deleteTargetGroup arn ∈ tgGroupGC envA.ownedTGArns group) ∧
      (∀ arn, group.contains arn = true →
        CloudCall.deleteTargetGroup arn ∉ tgGroupGC envA.ownedTGArns group)) :=
  ⟨by rfl, by decide,
   c8_gc_after_listener_convergence envA "nlb" "default" "foo"
     { Arn := "arn-a", DNSName := "dns-a" } (by rfl)⟩

end NLB
